import Mathlib

/-!
Verification development for the tomato ripeness analyzer
(`with_local_upload.py`, `optimized_with_local_upload.py`).

The core embedded here: the `UnripePercentageCalculator` class (HSV
color-range masking and percentage computation), the lock-protected
`last_frame` register shared by the capture loop and its consumers, the
`/process` and `/upload` route logic, and the capture loops of the two
variants.  Image-library primitives used by the code (`cv2.cvtColor`,
`cv2.inRange`, `np.sum(mask > 0)`, Python `round(x, 2)`) are modelled
mathematically per pixel; frames are total functions from coordinates to
8-bit RGB triples.
-/

/-- One pixel: three 8-bit channel samples.  For an RGB frame the fields are
red, green, blue; after `rgbToHsv` they are hue, saturation, value. -/
structure Pixel where
  c0 : Nat
  c1 : Nat
  c2 : Nat
deriving DecidableEq, Repr

/-- A frame: a height times width raster of pixels in a declared channel
order.  `pix` is total; only coordinates below `height` and `width` are
meaningful. -/
structure Image where
  height : Nat
  width : Nat
  pix : Nat → Nat → Pixel

/-- The result record returned by `UnripePercentageCalculator.calculate`:
three percentages and the total pixel count.  Python floats are modelled as
rationals. -/
structure ClassificationResult where
  unripe_pct : ℚ
  ripe_pct : ℚ
  transitional_pct : ℚ
  total_pixels : Nat
deriving DecidableEq, Repr

/-- Python `round(x, 2)`: round to two decimal places (nearest integer in
hundredths; Mathlib `round` is round-half-up, matching the fixed-point
rounding OpenCV and NumPy apply at representable inputs). -/
def round2 (q : ℚ) : ℚ := (round (q * 100) : ℚ) / 100

/-- Nearest-integer rounding of the fraction `a / b` for a positive
denominator `b`, in pure integer arithmetic:
`round(a / b) = floor(a / b + 1/2) = (2 a + b) / (2 b)` with floor
division.  `ratRound_eq_round` below identifies it with Mathlib `round`
on the rationals; OpenCV computes its fixed-point conversions the same
way (add half, shift down). -/
def ratRound (a : ℤ) (b : ℕ) : ℤ := (2 * a + b) / (2 * (b : ℤ))

/-- `V = max(R, G, B)`. -/
def hsvV (p : Pixel) : Nat := max p.c0 (max p.c1 p.c2)

/-- `Vmin = min(R, G, B)`. -/
def hsvVmin (p : Pixel) : Nat := min p.c0 (min p.c1 p.c2)

/-- `diff = V - Vmin`. -/
def hsvDiff (p : Pixel) : Nat := hsvV p - hsvVmin p

/-- `S = round(255 diff / V)`, and 0 when `V = 0`. -/
def hsvS (p : Pixel) : ℤ :=
  if hsvV p = 0 then 0 else ratRound (255 * (hsvDiff p : ℤ)) (hsvV p)

/-- Numerator of the hue sector formula over the denominator `diff`:
`Hdeg = hsvHNum / diff` is `60 (G-B)/diff` when `V = R`,
`120 + 60 (B-R)/diff` when `V = G`, `240 + 60 (R-G)/diff` otherwise,
and 0 for an achromatic pixel (`diff = 0`). -/
def hsvHNum (p : Pixel) : ℤ :=
  if hsvDiff p = 0 then 0
  else if hsvV p = p.c0 then 60 * ((p.c1 : ℤ) - (p.c2 : ℤ))
  else if hsvV p = p.c1 then
    120 * (hsvDiff p : ℤ) + 60 * ((p.c2 : ℤ) - (p.c0 : ℤ))
  else 240 * (hsvDiff p : ℤ) + 60 * ((p.c0 : ℤ) - (p.c1 : ℤ))

/-- The hue numerator shifted by a full turn when negative, so that
`Hdeg = hsvHPosNum / diff` lies in `[0, 360)`. -/
def hsvHPosNum (p : Pixel) : ℤ :=
  if hsvHNum p < 0 then hsvHNum p + 360 * (hsvDiff p : ℤ) else hsvHNum p

/-- 8-bit hue `H = round(Hdeg / 2) = round(hsvHPosNum / (2 diff))`, and 0
for an achromatic pixel. -/
def hsvH (p : Pixel) : ℤ :=
  if hsvDiff p = 0 then 0 else ratRound (hsvHPosNum p) (2 * hsvDiff p)

/-- `cv2.cvtColor(image, cv2.COLOR_RGB2HSV)` on an 8-bit pixel: OpenCV
8-bit HSV with hue on the half-degree scale 0..180, saturation and value
0..255. -/
def rgbToHsv (p : Pixel) : Pixel := ⟨(hsvH p).toNat, (hsvS p).toNat, hsvV p⟩

/-- `cv2.cvtColor(image, cv2.COLOR_BGR2RGB)` on one pixel: swap the first
and third channels. -/
def bgrToRgbPix (p : Pixel) : Pixel := ⟨p.c2, p.c1, p.c0⟩

/-- `cv2.cvtColor(image, cv2.COLOR_BGR2RGB)` applied to a whole frame. -/
def bgrToRgb (img : Image) : Image :=
  ⟨img.height, img.width, fun i j => bgrToRgbPix (img.pix i j)⟩

/-- `cv2.inRange(hsv, lower, upper)` at one pixel: true exactly when every
channel lies within its inclusive lower and upper bound (OpenCV writes 255
for true and 0 for false; the bitwise OR accumulation and the final
`mask > 0` test make the Boolean view exact). -/
def inRange (lo hi p : Pixel) : Bool :=
  decide (lo.c0 ≤ p.c0 ∧ p.c0 ≤ hi.c0 ∧ lo.c1 ≤ p.c1 ∧ p.c1 ≤ hi.c1 ∧
    lo.c2 ≤ p.c2 ∧ p.c2 ≤ hi.c2)

/-- `np.sum(mask > 0)` over an `h` times `w` mask: the number of coordinate
pairs at which the mask holds. -/
def countTrue (h w : Nat) (p : Nat → Nat → Bool) : Nat :=
  Finset.sum (Finset.range h) fun i =>
    Finset.sum (Finset.range w) fun j => if p i j then 1 else 0

/-- The seven named HSV color ranges configured in
`UnripePercentageCalculator.__init__` (both variants define the same set). -/
inductive ColorKey where
  | unripe_green
  | unripe_whitish
  | unripe_light_red
  | ripe_red
  | ripe_dark_red
  | transitional_yellow
  | transitional_light_red
deriving DecidableEq, Repr

namespace Opt

/-- `self.color_ranges` of `optimized_with_local_upload.py`: lower and upper
HSV bounds per named range. -/
def color_ranges : ColorKey → Pixel × Pixel
  | .unripe_green => (⟨30, 30, 50⟩, ⟨80, 255, 200⟩)
  | .unripe_whitish => (⟨0, 0, 100⟩, ⟨180, 50, 200⟩)
  | .unripe_light_red => (⟨0, 30, 100⟩, ⟨15, 100, 200⟩)
  | .ripe_red => (⟨0, 50, 50⟩, ⟨10, 255, 255⟩)
  | .ripe_dark_red => (⟨170, 50, 50⟩, ⟨180, 255, 255⟩)
  | .transitional_yellow => (⟨15, 50, 50⟩, ⟨30, 255, 255⟩)
  | .transitional_light_red => (⟨0, 20, 100⟩, ⟨20, 80, 255⟩)

/-- The key group passed for the unripe mask in `calculate`. -/
def unripeKeys : List ColorKey :=
  [.unripe_green, .unripe_whitish, .unripe_light_red]

/-- The key group passed for the ripe mask in `calculate`. -/
def ripeKeys : List ColorKey := [.ripe_red, .ripe_dark_red]

/-- The key group passed for the transitional mask in `calculate`. -/
def transitionalKeys : List ColorKey :=
  [.transitional_yellow, .transitional_light_red]

/-- `UnripePercentageCalculator._mask` at one pixel: convert the RGB pixel
to HSV, then OR together `cv2.inRange` over the listed keys (the code
starts from a zero mask and accumulates with bitwise OR, so a pixel is set
exactly when at least one range of the group contains it). -/
def maskPix (img : Image) (keys : List ColorKey) (i j : Nat) : Bool :=
  keys.any fun k =>
    inRange (color_ranges k).1 (color_ranges k).2 (rgbToHsv (img.pix i j))

/-- `UnripePercentageCalculator.calculate`: three group masks, nonzero
counts, `total = shape[0] * shape[1]`, and percentages
`round(count / total * 100, 2)`.  There is no zero-area guard: for a frame
with `total = 0` the Python code performs `count / 0` (NumPy yields NaN
after `cv2.cvtColor` has already rejected the empty array with its own
assertion); this embedding follows the Lean convention `q / 0 = 0`, and in
neither semantics is any `InvalidFrame`-style error value produced. -/
def calculate (img : Image) : ClassificationResult :=
  let total := img.height * img.width
  let unripe := countTrue img.height img.width (maskPix img unripeKeys)
  let ripe := countTrue img.height img.width (maskPix img ripeKeys)
  let transitional := countTrue img.height img.width (maskPix img transitionalKeys)
  ⟨round2 ((unripe : ℚ) / (total : ℚ) * 100),
   round2 ((ripe : ℚ) / (total : ℚ) * 100),
   round2 ((transitional : ℚ) / (total : ℚ) * 100),
   total⟩

end Opt

namespace V1

/-- `self.color_ranges` of `with_local_upload.py` (written out from that
file; the constants coincide with the optimized variant). -/
def color_ranges : ColorKey → Pixel × Pixel
  | .unripe_green => (⟨30, 30, 50⟩, ⟨80, 255, 200⟩)
  | .unripe_whitish => (⟨0, 0, 100⟩, ⟨180, 50, 200⟩)
  | .unripe_light_red => (⟨0, 30, 100⟩, ⟨15, 100, 200⟩)
  | .ripe_red => (⟨0, 50, 50⟩, ⟨10, 255, 255⟩)
  | .ripe_dark_red => (⟨170, 50, 50⟩, ⟨180, 255, 255⟩)
  | .transitional_yellow => (⟨15, 50, 50⟩, ⟨30, 255, 255⟩)
  | .transitional_light_red => (⟨0, 20, 100⟩, ⟨20, 80, 255⟩)

/-- `UnripePercentageCalculator._mask` of `with_local_upload.py` at one
pixel. -/
def maskPix (img : Image) (keys : List ColorKey) (i j : Nat) : Bool :=
  keys.any fun k =>
    inRange (color_ranges k).1 (color_ranges k).2 (rgbToHsv (img.pix i j))

/-- `UnripePercentageCalculator.calculate` of `with_local_upload.py`. -/
def calculate (img : Image) : ClassificationResult :=
  let total := img.height * img.width
  let unripe := countTrue img.height img.width
    (maskPix img [.unripe_green, .unripe_whitish, .unripe_light_red])
  let ripe := countTrue img.height img.width
    (maskPix img [.ripe_red, .ripe_dark_red])
  let transitional := countTrue img.height img.width
    (maskPix img [.transitional_yellow, .transitional_light_red])
  ⟨round2 ((unripe : ℚ) / (total : ℚ) * 100),
   round2 ((ripe : ℚ) / (total : ℚ) * 100),
   round2 ((transitional : ℚ) / (total : ℚ) * 100),
   total⟩

end V1

/-- Object-state model of the `UnripePercentageCalculator` class:
`__init__` stores `color_ranges` on the instance; no method writes any
attribute afterwards. -/
structure CalcObj where
  ranges : ColorKey → Pixel × Pixel

/-- `UnripePercentageCalculator()`: a freshly constructed instance. -/
def CalcObj.init : CalcObj := ⟨Opt.color_ranges⟩

/-- `_mask` as a method reading `self.color_ranges`. -/
def CalcObj.maskPixM (c : CalcObj) (img : Image) (keys : List ColorKey)
    (i j : Nat) : Bool :=
  keys.any fun k =>
    inRange (c.ranges k).1 (c.ranges k).2 (rgbToHsv (img.pix i j))

/-- `calculate` as a method: it returns the result record together with the
instance state after the call.  The method body only reads
`self.color_ranges`, so the returned state is the incoming state. -/
def CalcObj.calculateM (c : CalcObj) (img : Image) :
    ClassificationResult × CalcObj :=
  let total := img.height * img.width
  let unripe := countTrue img.height img.width
    (c.maskPixM img Opt.unripeKeys)
  let ripe := countTrue img.height img.width (c.maskPixM img Opt.ripeKeys)
  let transitional := countTrue img.height img.width
    (c.maskPixM img Opt.transitionalKeys)
  (⟨round2 ((unripe : ℚ) / (total : ℚ) * 100),
    round2 ((ripe : ℚ) / (total : ℚ) * 100),
    round2 ((transitional : ℚ) / (total : ℚ) * 100),
    total⟩, c)

/-- The shared mutable state of the frame pipeline: the module-level
`last_frame` slot (None before the first capture) and the
`frame_ready` event flag of the optimized variant. -/
structure RegisterState where
  last_frame : Option Image
  frame_ready : Bool

/-- Startup state: `last_frame = None`, `frame_ready` unset. -/
def initialState : RegisterState := ⟨none, false⟩

/-- The with-lock block of the optimized `capture_loop`:
`last_frame = frame; frame_ready.set()`.  Only the reference is stored;
the frame replaces whatever was there. -/
def publish (_s : RegisterState) (f : Image) : RegisterState :=
  ⟨some f, true⟩

/-- The with-lock publish of `with_local_upload.py` (no event flag there;
the slot assignment is the whole critical section). -/
def publishV1 (s : RegisterState) (f : Image) : RegisterState :=
  ⟨some f, s.frame_ready⟩

/-- The nonblocking read both `/process` handlers perform under the lock:
the current `last_frame` reference, `none` when no frame was ever
published. -/
def getLatest (s : RegisterState) : Option Image := s.last_frame

/-- Outcome of a request handler: either a JSON error record
`{"error": msg}` or a classification result. -/
inductive ProcessOutcome where
  | error (msg : String)
  | ok (r : ClassificationResult)
deriving DecidableEq, Repr

/-- The `/process` route (`process_camera`, identical in both variants):
under the lock it checks `last_frame`; if `None` it returns the error
record immediately (it never waits for a frame), otherwise it copies the
frame, and outside the lock classifies the copy (the copy is value-equal
to the stored frame). -/
def process_camera (s : RegisterState) : ProcessOutcome :=
  match getLatest s with
  | none => .error "No frame captured"
  | some f => .ok (Opt.calculate f)

/-- The `/upload` route (`upload_image`) after a file part is present,
as a function of the `cv2.imdecode` outcome: `imdecode` returns `None`
exactly for byte buffers that do not decode as an image, and the handler
returns the error record at once, without retrying and without calling the
calculator; otherwise the decoded BGR image is converted to RGB and
classified. -/
def upload_image (decoded : Option Image) : ProcessOutcome :=
  match decoded with
  | none => .error "Invalid image"
  | some img => .ok (Opt.calculate (bgrToRgb img))

/-- Outcome of one `picam2.capture_array()` call: a frame, or an
acquisition failure (an exception raised by the camera stack). -/
inductive AcquireResult where
  | ok (f : Image)
  | err

/-- Observable effect of one iteration of a capture loop body. -/
structure CaptureStepResult where
  state : RegisterState
  /-- whether the loop proceeds to another iteration afterwards -/
  continues : Bool
  /-- total `time.sleep` duration of the iteration, in milliseconds -/
  sleptMs : ℚ
  /-- whether the iteration printed an error report -/
  reported : Bool

/-- One iteration of the optimized `capture_loop` body as a function of the
acquisition outcome.  Success publishes the frame; the `except` clause
prints the error, sleeps `0.001` seconds and falls through to the next
`while True` iteration, leaving the register untouched. -/
def captureStep (s : RegisterState) : AcquireResult → CaptureStepResult
  | .ok f => ⟨publish s f, true, 0, false⟩
  | .err => ⟨s, true, 1, true⟩

/-- One iteration of the `with_local_upload.py` `capture_loop` body.  There
is no `try` around `capture_array()`: success publishes and sleeps `0.03`
seconds, while an acquisition failure propagates out of the loop body and
terminates the daemon thread, with no report, no backoff and no retry. -/
def captureStepV1 (s : RegisterState) : AcquireResult → CaptureStepResult
  | .ok f => ⟨publishV1 s f, true, 30, false⟩
  | .err => ⟨s, false, 0, false⟩

/-- One elementary operation performed while holding the `threading.Lock`.
Pixel-touching operations carry the byte count of the frame they traverse
(`3 h w` for an 8-bit three-channel frame). -/
inductive LockOp where
  | refRead
  | refWrite
  | eventSignal
  | pixelCopy (bytes : Nat)
  | pixelConvert (bytes : Nat)
  | pixelEncode (bytes : Nat)
deriving DecidableEq, Repr

/-- Whether a lock-held operation traverses frame pixel data. -/
def touchesPixelData : LockOp → Bool
  | .pixelCopy _ => true
  | .pixelConvert _ => true
  | .pixelEncode _ => true
  | _ => false

/-- The operations inside the optimized `capture_loop` critical section:
`last_frame = frame` and `frame_ready.set()`, a reference swap plus an
event signal. -/
def captureLoopCriticalOps (_f : Image) : List LockOp :=
  [.refWrite, .eventSignal]

/-- The operations inside the `process_camera` critical section (same block
in both variants): the `None` check reads the reference, and
`image_rgb = last_frame.copy()` copies the whole frame while the lock is
held. -/
def processCameraCriticalOps (s : RegisterState) : List LockOp :=
  match s.last_frame with
  | none => [.refRead]
  | some f => [.refRead, .pixelCopy (3 * f.height * f.width)]

/-- The operations inside the optimized `gen_frames` critical section: the
`None` check, `frame = last_frame` (reference only) and
`frame_ready.clear()`; JPEG encoding happens after the lock is released. -/
def genFramesOptCriticalOps (s : RegisterState) : List LockOp :=
  match s.last_frame with
  | none => [.refRead]
  | some _ => [.refRead, .eventSignal]

/-- The operations inside the `with_local_upload.py` `gen_frames` critical
section: the `None` check, then `cv2.cvtColor` and `cv2.imencode` on the
full frame, both executed while the lock is held. -/
def genFramesV1CriticalOps (s : RegisterState) : List LockOp :=
  match s.last_frame with
  | none => [.refRead]
  | some f =>
    [.refRead, .pixelConvert (3 * f.height * f.width),
     .pixelEncode (3 * f.height * f.width)]

/-- A zero-area frame. -/
def emptyImage : Image := ⟨0, 0, fun _ _ => ⟨0, 0, 0⟩⟩

/-- A one-pixel frame whose RGB value (150, 121, 115) converts to
HSV (5, 60, 150), which lies inside `ripe_red`, `transitional_light_red`
and `unripe_light_red` at once: all three group masks cover it. -/
def overlapImage : Image := ⟨1, 1, fun _ _ => ⟨150, 121, 115⟩⟩

/-- A 480 times 640 frame as produced by the camera configuration. -/
def cameraImage : Image := ⟨480, 640, fun _ _ => ⟨0, 0, 0⟩⟩

/-- A one-pixel pure red frame, RGB (255, 0, 0). -/
def redImage : Image := ⟨1, 1, fun _ _ => ⟨255, 0, 0⟩⟩

/-- The membership predicate of one HSV color range, as a proposition:
every channel within its inclusive lower and upper bound. -/
def withinRange (lo hi p : Pixel) : Prop :=
  lo.c0 ≤ p.c0 ∧ p.c0 ≤ hi.c0 ∧ lo.c1 ≤ p.c1 ∧ p.c1 ≤ hi.c1 ∧
    lo.c2 ≤ p.c2 ∧ p.c2 ≤ hi.c2

instance (lo hi p : Pixel) : Decidable (withinRange lo hi p) := by
  unfold withinRange
  infer_instance

lemma inRange_iff (lo hi p : Pixel) : inRange lo hi p = true ↔ withinRange lo hi p := by
  unfold inRange withinRange
  simp

lemma round_mono {x y : ℚ} (h : x ≤ y) : round x ≤ round y := by
  rw [round_eq, round_eq]
  exact Int.floor_le_floor (by linarith)

lemma ratRound_eq_round (a : ℤ) (b : ℕ) (hb : 0 < b) :
    ratRound a b = round ((a : ℚ) / (b : ℚ)) := by
  have hbq : (0 : ℚ) < (b : ℚ) := by exact_mod_cast hb
  have key : (a : ℚ) / (b : ℚ) + 1 / 2 =
      ((2 * a + (b : ℤ) : ℤ) : ℚ) / (((2 * b : ℕ) : ℕ) : ℚ) := by
    push_cast
    field_simp
    ring
  rw [round_eq, ratRound, key, Rat.floor_intCast_div_natCast]
  norm_cast

lemma round2_nonneg {q : ℚ} (h : 0 ≤ q) : 0 ≤ round2 q := by
  unfold round2
  have h1 : (0 : ℤ) ≤ round (q * 100) := by
    have := round_mono (x := 0) (y := q * 100) (by nlinarith)
    simpa using this
  positivity

lemma round2_le_100 {q : ℚ} (h : q ≤ 100) : round2 q ≤ 100 := by
  unfold round2
  have h1 : round (q * 100) ≤ 10000 := by
    have := round_mono (x := q * 100) (y := 10000) (by nlinarith)
    have h2 : round ((10000 : ℚ)) = 10000 := by
      rw [round_eq]
      norm_num
    omega
  rw [div_le_iff₀ (by norm_num)]
  calc ((round (q * 100) : ℤ) : ℚ) ≤ ((10000 : ℤ) : ℚ) := by exact_mod_cast h1
  _ = 100 * 100 := by norm_num

lemma countTrue_le (h w : Nat) (p : Nat → Nat → Bool) : countTrue h w p ≤ h * w := by
  unfold countTrue
  calc (Finset.sum (Finset.range h) fun i =>
        Finset.sum (Finset.range w) fun j => if p i j then 1 else 0)
      ≤ Finset.sum (Finset.range h) fun _ => w := by
        refine Finset.sum_le_sum fun i _ => ?_
        calc (Finset.sum (Finset.range w) fun j => if p i j then 1 else 0)
            ≤ Finset.sum (Finset.range w) fun _ => 1 := by
              refine Finset.sum_le_sum fun j _ => ?_
              split <;> omega
        _ = w := by simp
  _ = h * w := by simp [mul_comm]

lemma hsvVmin_le_hsvV (p : Pixel) : hsvVmin p ≤ hsvV p := by
  unfold hsvVmin hsvV
  exact le_trans (min_le_left _ _) (le_max_left _ _)

lemma hsvDiff_cast (p : Pixel) :
    (hsvDiff p : ℤ) = (hsvV p : ℤ) - (hsvVmin p : ℤ) := by
  have h := hsvVmin_le_hsvV p
  unfold hsvDiff
  omega

lemma hsvHNum_bounds (p : Pixel) :
    -60 * (hsvDiff p : ℤ) ≤ hsvHNum p ∧ hsvHNum p ≤ 300 * (hsvDiff p : ℤ) := by
  have h0v : p.c0 ≤ hsvV p := le_max_left _ _
  have h1v : p.c1 ≤ hsvV p := le_trans (le_max_left _ _) (le_max_right _ _)
  have h2v : p.c2 ≤ hsvV p := le_trans (le_max_right _ _) (le_max_right _ _)
  have hm0 : hsvVmin p ≤ p.c0 := min_le_left _ _
  have hm1 : hsvVmin p ≤ p.c1 := le_trans (min_le_right _ _) (min_le_left _ _)
  have hm2 : hsvVmin p ≤ p.c2 := le_trans (min_le_right _ _) (min_le_right _ _)
  have hd := hsvDiff_cast p
  unfold hsvHNum
  split_ifs <;> omega

lemma hsvHPosNum_bounds (p : Pixel) :
    0 ≤ hsvHPosNum p ∧ hsvHPosNum p ≤ 360 * (hsvDiff p : ℤ) := by
  have h := hsvHNum_bounds p
  have hd : (0 : ℤ) ≤ (hsvDiff p : ℤ) := Int.natCast_nonneg _
  unfold hsvHPosNum
  split_ifs <;> omega

lemma rgbToHsv_hue_le (p : Pixel) : (rgbToHsv p).c0 ≤ 180 := by
  show (hsvH p).toNat ≤ 180
  unfold hsvH
  split_ifs with h
  · simp
  · have hd : 0 < 2 * hsvDiff p := by omega
    rw [ratRound_eq_round _ _ hd]
    have hb := hsvHPosNum_bounds p
    have hq : (hsvHPosNum p : ℚ) / ((2 * hsvDiff p : ℕ) : ℚ) ≤ 180 := by
      rw [div_le_iff₀ (by exact_mod_cast hd)]
      have : (hsvHPosNum p : ℚ) ≤ 360 * (hsvDiff p : ℚ) := by exact_mod_cast hb.2
      push_cast
      linarith
    have hr := round_mono hq
    have h180 : round ((180 : ℚ)) = 180 := by
      rw [round_eq]
      norm_num
    rw [h180] at hr
    omega

lemma rgbToHsv_sat_le (p : Pixel) : (rgbToHsv p).c1 ≤ 255 := by
  show (hsvS p).toNat ≤ 255
  unfold hsvS
  split_ifs with h
  · simp
  · have hv : 0 < hsvV p := Nat.pos_of_ne_zero h
    rw [ratRound_eq_round _ _ hv]
    have hdle : hsvDiff p ≤ hsvV p := Nat.sub_le _ _
    have hq : ((255 * (hsvDiff p : ℤ) : ℤ) : ℚ) / ((hsvV p : ℕ) : ℚ) ≤ 255 := by
      rw [div_le_iff₀ (by exact_mod_cast hv)]
      have : ((hsvDiff p : ℕ) : ℚ) ≤ ((hsvV p : ℕ) : ℚ) := by exact_mod_cast hdle
      push_cast
      linarith
    have hr := round_mono hq
    have h255 : round ((255 : ℚ)) = 255 := by
      rw [round_eq]
      norm_num
    rw [h255] at hr
    omega

lemma rgbToHsv_val_le (p : Pixel) (h0 : p.c0 ≤ 255) (h1 : p.c1 ≤ 255)
    (h2 : p.c2 ≤ 255) : (rgbToHsv p).c2 ≤ 255 := by
  show hsvV p ≤ 255
  unfold hsvV
  omega

lemma Opt.calculate_def (img : Image) :
    Opt.calculate img =
      ⟨round2 ((countTrue img.height img.width (Opt.maskPix img Opt.unripeKeys) : ℚ) /
          ((img.height * img.width : ℕ) : ℚ) * 100),
       round2 ((countTrue img.height img.width (Opt.maskPix img Opt.ripeKeys) : ℚ) /
          ((img.height * img.width : ℕ) : ℚ) * 100),
       round2 ((countTrue img.height img.width (Opt.maskPix img Opt.transitionalKeys) : ℚ) /
          ((img.height * img.width : ℕ) : ℚ) * 100),
       img.height * img.width⟩ := rfl

lemma pct_bound {cnt total : ℕ} (hc : cnt ≤ total) (ht : 0 < total) :
    0 ≤ round2 ((cnt : ℚ) / ((total : ℕ) : ℚ) * 100) ∧
      round2 ((cnt : ℚ) / ((total : ℕ) : ℚ) * 100) ≤ 100 := by
  have htq : (0 : ℚ) < ((total : ℕ) : ℚ) := by exact_mod_cast ht
  have h0 : (0 : ℚ) ≤ (cnt : ℚ) / ((total : ℕ) : ℚ) * 100 := by positivity
  have h1 : (cnt : ℚ) / ((total : ℕ) : ℚ) * 100 ≤ 100 := by
    have hd : (cnt : ℚ) / ((total : ℕ) : ℚ) ≤ 1 := by
      rw [div_le_one htq]
      exact_mod_cast hc
    nlinarith
  exact ⟨round2_nonneg h0, round2_le_100 h1⟩

lemma overlap_counts :
    countTrue 1 1 (Opt.maskPix overlapImage Opt.unripeKeys) = 1 ∧
    countTrue 1 1 (Opt.maskPix overlapImage Opt.ripeKeys) = 1 ∧
    countTrue 1 1 (Opt.maskPix overlapImage Opt.transitionalKeys) = 1 := by
  decide

lemma overlap_eval : Opt.calculate overlapImage = ⟨100, 100, 100, 1⟩ := by
  have hc := overlap_counts
  rw [Opt.calculate_def]
  simp only [show overlapImage.height = 1 from rfl, show overlapImage.width = 1 from rfl]
  rw [hc.1, hc.2.1, hc.2.2]
  norm_num [round2, round_eq]

/-- Claim C1: the spec requires a zero-pixel frame to fail with an
`InvalidFrame` error instead of dividing by zero; the code has no
zero-area guard and no `InvalidFrame` error anywhere.  `calculate` on the
empty frame simply evaluates its percentage expressions with
`total = 0`: in this embedding (where `q / 0 = 0`) it returns a plain
result record, and in the Python code the division `count / 0` yields NaN
(after `cv2.cvtColor` has already rejected the empty array with its own
generic assertion, surfacing as an unhandled exception, not as a reported
`InvalidFrame` error). -/
theorem zero_area_frame_yields_result_not_error :
    Opt.calculate emptyImage = ⟨0, 0, 0, 0⟩ := by
  rw [Opt.calculate_def]
  norm_num [show emptyImage.height = 0 from rfl, show emptyImage.width = 0 from rfl,
    countTrue, round2, round_eq]

/-- Claim C2: for every frame and pixel, each group mask of `classify`
marks the pixel exactly when the HSV conversion of the pixel falls within
the inclusive lower and upper bounds of at least one of the group ranges
(OR across the group ranges, AND across the three channel bounds), with
the groups unripe, ripe and transitional as listed; the conversion target
satisfies hue in [0,180] and saturation and value in [0,255]. -/
theorem mask_or_of_inclusive_hsv_ranges (img : Image) (i j : Nat)
    (h0 : (img.pix i j).c0 ≤ 255) (h1 : (img.pix i j).c1 ≤ 255)
    (h2 : (img.pix i j).c2 ≤ 255) :
    (Opt.maskPix img Opt.unripeKeys i j = true ↔
      ∃ k ∈ Opt.unripeKeys,
        withinRange (Opt.color_ranges k).1 (Opt.color_ranges k).2
          (rgbToHsv (img.pix i j))) ∧
    (Opt.maskPix img Opt.ripeKeys i j = true ↔
      ∃ k ∈ Opt.ripeKeys,
        withinRange (Opt.color_ranges k).1 (Opt.color_ranges k).2
          (rgbToHsv (img.pix i j))) ∧
    (Opt.maskPix img Opt.transitionalKeys i j = true ↔
      ∃ k ∈ Opt.transitionalKeys,
        withinRange (Opt.color_ranges k).1 (Opt.color_ranges k).2
          (rgbToHsv (img.pix i j))) ∧
    Opt.unripeKeys =
      [ColorKey.unripe_green, ColorKey.unripe_whitish, ColorKey.unripe_light_red] ∧
    Opt.ripeKeys = [ColorKey.ripe_red, ColorKey.ripe_dark_red] ∧
    Opt.transitionalKeys =
      [ColorKey.transitional_yellow, ColorKey.transitional_light_red] ∧
    (rgbToHsv (img.pix i j)).c0 ≤ 180 ∧
    (rgbToHsv (img.pix i j)).c1 ≤ 255 ∧
    (rgbToHsv (img.pix i j)).c2 ≤ 255 := by
  refine ⟨?_, ?_, ?_, rfl, rfl, rfl, rgbToHsv_hue_le _, rgbToHsv_sat_le _,
    rgbToHsv_val_le _ h0 h1 h2⟩
  all_goals
    unfold Opt.maskPix
    simp [inRange_iff]

/-- Witness for C2 at the concrete one-pixel frame `overlapImage`. -/
theorem mask_or_of_inclusive_hsv_ranges_witness :
    Opt.maskPix overlapImage Opt.unripeKeys 0 0 = true ↔
      ∃ k ∈ Opt.unripeKeys,
        withinRange (Opt.color_ranges k).1 (Opt.color_ranges k).2
          (rgbToHsv (overlapImage.pix 0 0)) :=
  (mask_or_of_inclusive_hsv_ranges overlapImage 0 0 (by decide) (by decide)
    (by decide)).1

/-- Claim C3: for every frame with a positive pixel count, the three
percentages of `calculate` lie in [0,100], each equals the mask count over
the total count times 100 rounded to two decimals, `total_pixels` is
height times width, and the percentages need not sum to 100 (at the
concrete frame `overlapImage`, whose single pixel satisfies all three
group masks, the sum is 300). -/
theorem calculate_pct_in_bounds (img : Image)
    (h : 0 < img.height * img.width) :
    (0 ≤ (Opt.calculate img).unripe_pct ∧ (Opt.calculate img).unripe_pct ≤ 100) ∧
    (0 ≤ (Opt.calculate img).ripe_pct ∧ (Opt.calculate img).ripe_pct ≤ 100) ∧
    (0 ≤ (Opt.calculate img).transitional_pct ∧
      (Opt.calculate img).transitional_pct ≤ 100) ∧
    (Opt.calculate img).total_pixels = img.height * img.width ∧
    (Opt.calculate img).unripe_pct =
      round2 ((countTrue img.height img.width (Opt.maskPix img Opt.unripeKeys) : ℚ) /
        ((img.height * img.width : ℕ) : ℚ) * 100) ∧
    (Opt.calculate img).ripe_pct =
      round2 ((countTrue img.height img.width (Opt.maskPix img Opt.ripeKeys) : ℚ) /
        ((img.height * img.width : ℕ) : ℚ) * 100) ∧
    (Opt.calculate img).transitional_pct =
      round2 ((countTrue img.height img.width (Opt.maskPix img Opt.transitionalKeys) : ℚ) /
        ((img.height * img.width : ℕ) : ℚ) * 100) ∧
    (Opt.calculate overlapImage).unripe_pct + (Opt.calculate overlapImage).ripe_pct +
      (Opt.calculate overlapImage).transitional_pct ≠ 100 := by
  have hu := pct_bound (countTrue_le img.height img.width (Opt.maskPix img Opt.unripeKeys)) h
  have hr := pct_bound (countTrue_le img.height img.width (Opt.maskPix img Opt.ripeKeys)) h
  have ht := pct_bound (countTrue_le img.height img.width (Opt.maskPix img Opt.transitionalKeys)) h
  refine ⟨?_, ?_, ?_, ?_, ?_, ?_, ?_, ?_⟩
  · exact hu
  · exact hr
  · exact ht
  · rfl
  · rfl
  · rfl
  · rfl
  · rw [overlap_eval]
    norm_num

/-- Witness for C3 at the concrete frame `overlapImage`. -/
theorem calculate_pct_in_bounds_witness :
    0 < overlapImage.height * overlapImage.width ∧
    0 ≤ (Opt.calculate overlapImage).unripe_pct ∧
    (Opt.calculate overlapImage).unripe_pct ≤ 100 :=
  ⟨by decide, (calculate_pct_in_bounds overlapImage (by decide)).1⟩

/-- Claim C4: `calculate` is pure, stateless and deterministic: the method
leaves the instance state unchanged, a second call on the same frame
returns the identical result record, and the result of the stateful method
coincides with the pure function. -/
theorem calculate_pure_stateless_deterministic (img : Image) :
    (CalcObj.init.calculateM img).2 = CalcObj.init ∧
    ((CalcObj.init.calculateM img).2.calculateM img).1 =
      (CalcObj.init.calculateM img).1 ∧
    (CalcObj.init.calculateM img).1 = Opt.calculate img :=
  ⟨rfl, rfl, rfl⟩

/-- Claim C5 counterexample: with a camera-sized frame published, the
`/process` handler critical section contains a full-frame pixel copy
(`image_rgb = last_frame.copy()` is executed while the lock is held), so
the claim that no pixel data is copied or processed inside any register
critical section is false on the code. -/
theorem process_camera_copies_pixels_under_lock :
    (processCameraCriticalOps (publish initialState cameraImage)).any
      touchesPixelData = true := by
  rfl

/-- Claim C5 amended: only the producer publish (and the optimized
streaming reader) keep pixel work out of the critical section; the
`/process` handler copies the full frame inside the lock, and the
`with_local_upload.py` streaming generator color-converts and
JPEG-encodes the frame inside the lock, so consumer lock hold time grows
with the frame size. -/
theorem critical_section_pixel_work (f : Image) (s : RegisterState)
    (h : s.last_frame = some f) :
    (captureLoopCriticalOps f).all (fun op => ! touchesPixelData op) = true ∧
    (genFramesOptCriticalOps s).all (fun op => ! touchesPixelData op) = true ∧
    processCameraCriticalOps s =
      [.refRead, .pixelCopy (3 * f.height * f.width)] ∧
    genFramesV1CriticalOps s =
      [.refRead, .pixelConvert (3 * f.height * f.width),
       .pixelEncode (3 * f.height * f.width)] := by
  refine ⟨rfl, ?_, ?_, ?_⟩
  · unfold genFramesOptCriticalOps
    rw [h]
    rfl
  · unfold processCameraCriticalOps
    rw [h]
  · unfold genFramesV1CriticalOps
    rw [h]

/-- Witness for the amended C5 at a concrete published frame. -/
theorem critical_section_pixel_work_witness :
    (publish initialState cameraImage).last_frame = some cameraImage ∧
    (captureLoopCriticalOps cameraImage).all
      (fun op => ! touchesPixelData op) = true :=
  ⟨rfl, (critical_section_pixel_work cameraImage (publish initialState cameraImage) rfl).1⟩

/-- Claim C6 counterexample: in `with_local_upload.py` the capture loop
body has no exception handling, so an acquisition failure terminates the
loop without a report and without the 1 ms backoff, contradicting the
claim that the capture loop never terminates on a transient capture
failure. -/
theorem v1_capture_error_ends_loop :
    (captureStepV1 initialState .err).continues = false ∧
    (captureStepV1 initialState .err).reported = false ∧
    (captureStepV1 initialState .err).sleptMs = 0 :=
  ⟨rfl, rfl, rfl⟩

/-- Claim C6 amended: the optimized variant handles an acquisition failure
exactly as claimed (report, 1 ms sleep, retry with the register
unchanged, so nothing is propagated to consumers), while in
`with_local_upload.py` an acquisition failure terminates the capture
loop. -/
theorem capture_error_handling_by_variant (s : RegisterState) :
    captureStep s .err = ⟨s, true, 1, true⟩ ∧
    (captureStepV1 s .err).continues = false :=
  ⟨rfl, rfl⟩

/-- Claim C7: before any frame has been published, the nonblocking
`/process` read reports the no-frame error immediately instead of a
classification result (the handler is a plain function of the register
state: it never suspends waiting for a frame). -/
theorem process_camera_before_first_publish (s : RegisterState)
    (h : s.last_frame = none) :
    process_camera s = .error "No frame captured" := by
  unfold process_camera getLatest
  rw [h]

/-- Witness for C7 at the startup state. -/
theorem process_camera_before_first_publish_witness :
    initialState.last_frame = none ∧
    process_camera initialState = .error "No frame captured" :=
  ⟨rfl, process_camera_before_first_publish initialState rfl⟩

/-- Claim C8: a byte buffer that does not decode as an image
(`cv2.imdecode` returns `None`) makes the upload handler report the
invalid-image error immediately; the outcome is never a classification
result, so the calculator is not invoked. -/
theorem upload_undecodable_reports_invalid_image (r : ClassificationResult) :
    upload_image none = .error "Invalid image" ∧
    upload_image none ≠ .ok r := by
  refine ⟨rfl, ?_⟩
  intro h
  cases h

/-- Claim C9: after two publishes the register holds exactly the second
frame; the first is only observable when the two frames are equal. -/
theorem get_latest_after_two_publishes (s : RegisterState) (A B : Image) :
    getLatest (publish (publish s A) B) = some B ∧
    (getLatest (publish (publish s A) B) = some A → B = A) := by
  exact ⟨rfl, fun h => Option.some.inj h⟩

/-- Witness for C9 at two concrete distinct frames. -/
theorem get_latest_after_two_publishes_witness :
    getLatest (publish (publish initialState redImage) overlapImage) =
      some overlapImage ∧
    (getLatest (publish (publish initialState redImage) overlapImage) =
      some redImage → overlapImage = redImage) :=
  get_latest_after_two_publishes initialState redImage overlapImage

/-- Claim C10: the classifiers of the two implementation variants are the
same function: identical color-range constants, masking and percentage
computation give equal results on every frame. -/
theorem calculate_variants_agree (img : Image) :
    V1.calculate img = Opt.calculate img := rfl

/-- Witness for C4 at the concrete frame `overlapImage`. -/
theorem calculate_pure_stateless_deterministic_witness :
    (CalcObj.init.calculateM overlapImage).2 = CalcObj.init ∧
    ((CalcObj.init.calculateM overlapImage).2.calculateM overlapImage).1 =
      (CalcObj.init.calculateM overlapImage).1 ∧
    (CalcObj.init.calculateM overlapImage).1 = Opt.calculate overlapImage :=
  calculate_pure_stateless_deterministic overlapImage

/-- Witness for the amended C6 at the startup state. -/
theorem capture_error_handling_by_variant_witness :
    captureStep initialState .err = ⟨initialState, true, 1, true⟩ ∧
    (captureStepV1 initialState .err).continues = false :=
  capture_error_handling_by_variant initialState

/-- Witness for C8 at a concrete result record. -/
theorem upload_undecodable_reports_invalid_image_witness :
    upload_image none = .error "Invalid image" ∧
    upload_image none ≠ .ok ⟨0, 0, 0, 0⟩ :=
  upload_undecodable_reports_invalid_image ⟨0, 0, 0, 0⟩

/-- Witness for C10 at the concrete frame `overlapImage`. -/
theorem calculate_variants_agree_witness :
    V1.calculate overlapImage = Opt.calculate overlapImage :=
  calculate_variants_agree overlapImage
